import Mathlib

/-!
Verification development for the GlowUp market-research frontend
(React pages `Landing.jsx`, `Dashboard.jsx` and the HTTP client
`marketResearchService.js`) together with the backend generation
orchestrator that the repository documents (Flask service on port 5001,
modelled from the specification where its code is not part of the
snapshot).

Conventions of the shallow embedding:
* JavaScript values flowing through `fetch`/JSON are modelled by the
  inductive `Json` below; JS property access (`data.success`) is
  `Json.get`, JS truthiness is `Json.truthy`.
* A JavaScript function that can `throw` is modelled as returning
  `Except String α`: `Except.error m` means an exception with message
  `m` propagates to the caller, `Except.ok v` means a normal return.
* The outcome of one `fetch` call is environment-supplied
  (`FetchOutcome`): the network may fail, or deliver a response with an
  `ok` flag, a status code and a body whose JSON parse may itself fail.
* Functions that perform HTTP requests are threaded through a request
  counter (`Nat`), so the number of requests a code path performs is an
  explicit part of the model.
-/

/-- A JavaScript/JSON value as seen by the frontend code. `undefined` stands
for the JavaScript value `undefined` (missing property). -/
inductive Json where
  | null
  | undefined
  | bool (b : Bool)
  | num (n : Int)
  | str (s : String)
  | arr (xs : List Json)
  | obj (fields : List (String × Json))

/-- JS property access `v.k`: on an object, the first field named `k`
(or `undefined` when absent); on any non-object, `undefined`. -/
def Json.get (v : Json) (k : String) : Json :=
  match v with
  | .obj fields =>
    match fields.find? (fun p => p.1 == k) with
    | some p => p.2
    | none => .undefined
  | _ => .undefined

/-- JavaScript truthiness of a value. -/
def Json.truthy : Json → Bool
  | .null => false
  | .undefined => false
  | .bool b => b
  | .num n => !(n == 0)
  | .str s => !(s == "")
  | .arr _ => true
  | .obj _ => true

/-- String conversion used when a value becomes an Error message. -/
def Json.toMessage : Json → String
  | .null => "null"
  | .undefined => "undefined"
  | .bool b => if b then "true" else "false"
  | .num n => toString n
  | .str s => s
  | .arr _ => "[array]"
  | .obj _ => "[object Object]"

/-- The JS idiom `v || dflt` as used in `new Error(data.error || dflt)`:
the message of `v` when `v` is truthy, otherwise the default. -/
def errorOrDefault (v : Json) (dflt : String) : String :=
  if v.truthy then v.toMessage else dflt

/-- Membership in the ECMA-262 white-space set removed by
`String.prototype.trim` (WhiteSpace and LineTerminator code points). -/
def isJsWhitespace (c : Char) : Bool :=
  c.toNat == 9 || c.toNat == 10 || c.toNat == 11 || c.toNat == 12 ||
  c.toNat == 13 || c.toNat == 32 || c.toNat == 0xa0 || c.toNat == 0x1680 ||
  c.toNat == 0x2000 || c.toNat == 0x2001 || c.toNat == 0x2002 ||
  c.toNat == 0x2003 || c.toNat == 0x2004 || c.toNat == 0x2005 ||
  c.toNat == 0x2006 || c.toNat == 0x2007 || c.toNat == 0x2008 ||
  c.toNat == 0x2009 || c.toNat == 0x200a || c.toNat == 0x2028 ||
  c.toNat == 0x2029 || c.toNat == 0x202f || c.toNat == 0x205f ||
  c.toNat == 0x3000 || c.toNat == 0xfeff

/-- Character-list form of JavaScript `trim`: drop white space from the
front, then from the back. -/
def jsTrimList (l : List Char) : List Char :=
  List.rdropWhile isJsWhitespace (List.dropWhile isJsWhitespace l)

/-- JavaScript `s.trim()`: remove leading and trailing white space. -/
def jsTrim (s : String) : String :=
  ⟨jsTrimList s.data⟩

/-- The outcome the environment hands to one `fetch` invocation: either
the promise rejects (network failure, with the rejection message) or a
response arrives with its `ok` flag, HTTP status, and a body whose
`response.json()` parse either throws (message) or yields a value. -/
inductive FetchOutcome where
  | networkError (message : String)
  | response (ok : Bool) (status : Nat) (body : Except String Json)

/-- Embedding of `marketResearchService.generateQuestions`
(src/services/marketResearchService.js lines 9 to 36), given the outcome
of its single `fetch`. The `catch` block in the source logs the error
and rethrows it, so every failure is an `Except.error` propagated to the
caller: network rejection is rethrown; a non-ok response throws
`HTTP error! status: N`; a body whose JSON parse throws is rethrown; a
parsed body with falsy `success` throws `data.error` or the default
message; otherwise the parsed body is returned as-is. -/
def generateQuestions (o : FetchOutcome) : Except String Json :=
  match o with
  | .networkError m => .error m
  | .response ok status body =>
    if !ok then
      .error ("HTTP error! status: " ++ toString status)
    else
      match body with
      | .error m => .error m
      | .ok data =>
        if !(data.get "success").truthy then
          .error (errorOrDefault (data.get "error") "Failed to generate questions")
        else
          .ok data

/-- Embedding of the response handling of
`marketResearchService.generateReport` (same file, lines 92 to 126):
identical control flow to `generateQuestions` with a different default
error message. -/
def interpretReport (o : FetchOutcome) : Except String Json :=
  match o with
  | .networkError m => .error m
  | .response ok status body =>
    if !ok then
      .error ("HTTP error! status: " ++ toString status)
    else
      match body with
      | .error m => .error m
      | .ok data =>
        if !(data.get "success").truthy then
          .error (errorOrDefault (data.get "error") "Failed to generate report")
        else
          .ok data

/-- The HTTP request a generation call sends. -/
structure HttpRequest where
  url : String
  method : String
  body : Json

/-- The request `generateQuestions` sends (source lines 11 to 19): a
POST whose JSON body has the single field `problem_statement` holding
`problemStatement.trim()` - the field always holds the trimmed input. -/
def generateQuestionsRequest (problemStatement : String) : HttpRequest :=
  { url := "http://localhost:5001/api/generate-questions"
    method := "POST"
    body := Json.obj [("problem_statement", Json.str (jsTrim problemStatement))] }

/-- The request body `generateReport` sends (source lines 94 to 101):
`problem_statement` is the untrimmed argument and `user_answers` is
added only when a non-empty array is provided. -/
def generateReportRequest (problemStatement : String)
    (userAnswers : Option (List Json)) : HttpRequest :=
  { url := "http://localhost:5001/api/generate-report"
    method := "POST"
    body := Json.obj
      (("problem_statement", Json.str problemStatement) ::
        match userAnswers with
        | some l => if 0 < l.length then [("user_answers", Json.arr l)] else []
        | none => []) }

/-- One invocation of `generateQuestions` against a stream of fetch
outcomes `env`, with `n` requests already performed: the body has
exactly one `fetch`, consuming outcome `env n`, and no retry loop, so
the counter advances to `n + 1` whatever the outcome. -/
def runGenerateQuestions (problemStatement : String)
    (env : Nat → FetchOutcome) (n : Nat) : Except String Json × Nat :=
  (generateQuestions (env n), n + 1)

/-- One invocation of `generateReport` against a stream of fetch
outcomes, counting requests exactly as `runGenerateQuestions`. -/
def runGenerateReport (problemStatement : String)
    (userAnswers : Option (List Json)) (env : Nat → FetchOutcome)
    (n : Nat) : Except String Json × Nat :=
  (interpretReport (env n), n + 1)

/-- The observable outcome of one run of the Landing page handler: the
final error message state, the questions state, and how many HTTP
requests were performed. -/
structure LandingOutcome where
  errorMessage : String
  questions : Option Json
  networkCalls : Nat

/-- Embedding of `handleGenerateQuestions` in `Landing.jsx` (lines 13
to 31): an input whose trim is empty sets the error message
`Please enter a problem statement` and returns before any network
activity; otherwise the service is called with the trimmed input, a
normal return stores `data.questions`, and a thrown error with message
`m` stores `m` (or the connection-failure default when `m` is the empty
string, via the `err.message or default` idiom). -/
def handleGenerateQuestions (problemStatement : String)
    (env : Nat → FetchOutcome) : LandingOutcome :=
  if jsTrim problemStatement = "" then
    { errorMessage := "Please enter a problem statement"
      questions := none
      networkCalls := 0 }
  else
    match runGenerateQuestions (jsTrim problemStatement) env 0 with
    | (Except.ok data, n) =>
      { errorMessage := ""
        questions := some (data.get "questions")
        networkCalls := n }
    | (Except.error m, n) =>
      { errorMessage :=
          if m = "" then
            "Failed to connect to the market research service. Please make sure the backend is running."
          else m
        questions := none
        networkCalls := n }

/-- The observable outcome of one run of the Dashboard market-research
handler: final market error state, report state, and request count. -/
structure DashboardOutcome where
  marketError : String
  marketReport : Option Json
  networkCalls : Nat

/-- Embedding of `generateMarketResearchReport` in `Dashboard.jsx`
(lines 82 to 108). The guard is the JS test
`!profile.problem?.trim()`: a missing problem (optional chaining
yielding undefined) or a whitespace-only problem sets the validation
message and returns with no network activity. Otherwise the service is
called with the untrimmed problem; a returned report with truthy
`success` is stored; a falsy `success` stores `report.error` or the
default; a thrown error stores the generic catch message. -/
def generateMarketResearchReport (problem : Option String)
    (env : Nat → FetchOutcome) : DashboardOutcome :=
  match problem with
  | none =>
    { marketError := "Problem statement is required to generate market research"
      marketReport := none
      networkCalls := 0 }
  | some p =>
    if jsTrim p = "" then
      { marketError := "Problem statement is required to generate market research"
        marketReport := none
        networkCalls := 0 }
    else
      match runGenerateReport p none env 0 with
      | (Except.ok report, n) =>
        if (report.get "success").truthy then
          { marketError := ""
            marketReport := some report
            networkCalls := n }
        else
          { marketError :=
              errorOrDefault (report.get "error")
                "Failed to generate market research report"
            marketReport := none
            networkCalls := n }
      | (Except.error _, n) =>
        { marketError := "An error occurred while generating the market research report"
          marketReport := none
          networkCalls := n }

/-- Embedding of the `useProfile` hook (Dashboard.jsx lines 52 to 61).
The session storage state is the stored value of the key
`glowup-profile` (`none` when absent) and `parse` stands for
`JSON.parse` (`none` when it throws). The JS body is
`raw ? JSON.parse raw : emptyObject` inside a try/catch returning the
empty object: an absent key or empty stored string yields the empty
object without parsing, a parse failure is caught and yields the empty
object, and otherwise the parsed value is returned. -/
def useProfile (parse : String → Option Json) (stored : Option String) : Json :=
  match stored with
  | none => Json.obj []
  | some raw =>
    if raw = "" then Json.obj []
    else
      match parse raw with
      | some v => v
      | none => Json.obj []

/-- A runtime error aborting a React render. -/
inductive RenderError where
  | referenceError (name : String)

/-- The identifiers bound in scope of the Dashboard component JSX
(Dashboard.jsx): module imports (lines 1 to 5), module-level bindings
(`sections`, `useProfile`, `Dashboard`, `Field`), and the bindings
declared inside `Dashboard` (lines 64 to 82): `profile`, the five
`useState` pairs, and `generateMarketResearchReport`. -/
def dashboardDeclared : List String :=
  ["useMemo", "useState", "useEffect", "motion", "AnimatePresence",
   "AppShell", "marketResearchService", "generateInvestorsWithAnthropic",
   "generatePitchDeckWithAnthropic", "sections", "useProfile", "Dashboard",
   "Field", "profile", "active", "setActive", "marketReport",
   "setMarketReport", "isGeneratingReport", "setIsGeneratingReport",
   "marketError", "setMarketError", "generateMarketResearchReport"]

/-- Identifiers the pitch section block (Dashboard.jsx lines 862 to 939)
evaluates while rendering, in source order: the Generate button label
reads `pitchLoading`, then the error banner reads `pitchError`, and the
slide grid reads `AnimatePresence` and `pitchSlides`. (Identifiers that
appear only inside event-handler closures are not evaluated at render
time.) -/
def pitchRenderIds : List String :=
  ["pitchLoading", "pitchError", "AnimatePresence", "pitchSlides"]

/-- Identifiers referenced only inside the pitch section event handlers
(evaluated on click, not at render). -/
def pitchHandlerIds : List String :=
  ["setPitchError", "setPitchLoading", "setPitchSlides",
   "generatePitchDeckWithAnthropic", "profile"]

/-- Identifiers the connections section block (Dashboard.jsx lines 941
to 1013) evaluates while rendering, in source order: the Generate button
label reads `isLoading`, the error banner reads `error`, and the
investor grid reads `investors`. -/
def connectionsRenderIds : List String :=
  ["isLoading", "error", "investors"]

/-- Identifiers referenced only inside the connections section event
handlers. -/
def connectionsHandlerIds : List String :=
  ["setError", "setIsLoading", "setInvestors",
   "generateInvestorsWithAnthropic", "profile"]

/-- The free identifiers the Dashboard JSX evaluates when rendered with
a given active section key. The sidebar and section-header always read
`AppShell`, `sections`, `active`, `AnimatePresence` and `motion`; each
dedicated section block is guarded by `active === key &&` so its body is
evaluated only for its own key; the generic placeholder block (shown for
every key other than profile and market) closes over no component
identifiers. -/
def renderIds (active : String) : List String :=
  ["AppShell", "sections", "active", "AnimatePresence", "motion"]
  ++ (if active == "profile" then ["profile", "Field"] else [])
  ++ (if active == "market" then
        ["generateMarketResearchReport", "isGeneratingReport",
         "marketError", "marketReport"]
      else [])
  ++ (if active == "pitch" then pitchRenderIds else [])
  ++ (if active == "connections" then connectionsRenderIds else [])

/-- Rendering the Dashboard with a given active section: evaluating the
JSX resolves each identifier in evaluation order, and the first one not
bound in scope aborts the render with a ReferenceError; when all
identifiers resolve the render completes. -/
def renderDashboard (active : String) : Except RenderError Unit :=
  match (renderIds active).find? (fun i => !(dashboardDeclared.contains i)) with
  | some i => Except.error (RenderError.referenceError i)
  | none => Except.ok ()

/-- The section keys of the Dashboard sidebar (Dashboard.jsx lines 7
to 49). -/
def sectionKeys : List String :=
  ["profile", "landing", "pitch", "connections", "market", "content", "naming"]

/-- The kind of a Gateway failure (spec section 4.1). -/
inductive GatewayErrorKind where
  | unreachable
  | badResponse
  | timeout
  | auth

/-- The kind of a generated question (spec section 3). -/
inductive QuestionKind where
  | freeText
  | singleSelect

/-- A market-research question (spec section 3): id, text, kind, and an
ordered option list that is populated only for single-select questions. -/
structure QuestionT where
  id : Nat
  text : String
  kind : QuestionKind
  options : List String

/-- How a generation result was produced (spec section 3). -/
inductive GenerationMethod where
  | liveModel
  | fallback

/-- The response envelope of the question-generation task (spec
sections 3 and 6): success flag, generation method (absent on a
validation failure), the question sequence, and an optional error. -/
structure QuestionsEnvelope where
  success : Bool
  generationMethod : Option GenerationMethod
  questions : List QuestionT
  error : Option String

/-- The normalized payload a successful Gateway call delivers for the
report task (spec section 4.1): the structured report plus the model
that produced it. -/
structure NormalizedResponse where
  payload : Json
  model : String

/-- The response envelope of the report-generation task (spec
section 3). -/
structure ReportEnvelope where
  success : Bool
  payload : Option Json
  generationMethod : Option GenerationMethod
  modelUsed : Option String
  error : Option String

/-- Orchestrator input validation (spec sections 3 and 4.3): a problem
statement is accepted when it is non-empty and at most 1000 characters. -/
def validProblemStatement (ps : String) : Bool :=
  decide (0 < ps.length) && decide (ps.length ≤ 1000)

/-- Modelled from the spec: the backend Fallback Question Bank (spec
section 4.2; the Flask backend the README documents is not part of the
repository snapshot). A pure function of a static template set - it
ignores the problem statement beyond its argument position, always
succeeds, and returns the same non-empty predefined question sequence
for every input. -/
def fallbackQuestionBank (ps : String) : List QuestionT :=
  [ { id := 1
      text := "Who experiences this problem most acutely, and how often?"
      kind := QuestionKind.freeText
      options := [] },
    { id := 2
      text := "Which industry does this problem primarily belong to?"
      kind := QuestionKind.singleSelect
      options := ["Retail", "Healthcare", "Technology", "Finance", "Other"] },
    { id := 3
      text := "How are people solving this problem today?"
      kind := QuestionKind.freeText
      options := [] },
    { id := 4
      text := "How large is the budget your target customer controls?"
      kind := QuestionKind.singleSelect
      options := ["Under 1k", "1k to 10k", "10k to 100k", "Over 100k"] },
    { id := 5
      text := "What would make a new solution clearly better than the status quo?"
      kind := QuestionKind.freeText
      options := [] } ]

/-- Modelled from the spec: the Generation Orchestrator on the
question-generation task (spec section 4.3; the Flask backend is not
part of the repository snapshot). Validation failure is terminal and
never reaches the Gateway; a Gateway success wraps the live questions
with generationMethod live-model; any GatewayError is absorbed into a
successful fallback result built from the Fallback Question Bank. -/
def orchestrateQuestions (ps : String)
    (gw : Except GatewayErrorKind (List QuestionT)) : QuestionsEnvelope :=
  if validProblemStatement ps then
    match gw with
    | Except.ok qs =>
      { success := true
        generationMethod := some GenerationMethod.liveModel
        questions := qs
        error := none }
    | Except.error _ =>
      { success := true
        generationMethod := some GenerationMethod.fallback
        questions := fallbackQuestionBank ps
        error := none }
  else
    { success := false
      generationMethod := none
      questions := []
      error := some "Please enter a problem statement" }

/-- The generic user-facing message the Orchestrator reports for a
Gateway failure on the report task (spec section 7). -/
def gatewayErrorMessage (e : GatewayErrorKind) : String :=
  match e with
  | GatewayErrorKind.unreachable => "Failed to generate report: service unreachable"
  | GatewayErrorKind.badResponse => "Failed to generate report: bad model response"
  | GatewayErrorKind.timeout => "Failed to generate report: request timed out"
  | GatewayErrorKind.auth => "Failed to generate report: missing or invalid API key"

/-- Modelled from the spec: the Generation Orchestrator on the
report-generation task (spec section 4.3; the Flask backend is not part
of the repository snapshot). Validation failure is terminal; a Gateway
success passes the normalized payload through unchanged with
generationMethod live-model; a GatewayError is a failure with empty
payload and a populated error - there is no fallback report content. -/
def orchestrateReport (ps : String)
    (gw : Except GatewayErrorKind NormalizedResponse) : ReportEnvelope :=
  if validProblemStatement ps then
    match gw with
    | Except.ok r =>
      { success := true
        payload := some r.payload
        generationMethod := some GenerationMethod.liveModel
        modelUsed := some r.model
        error := none }
    | Except.error e =>
      { success := false
        payload := none
        generationMethod := none
        modelUsed := none
        error := some (gatewayErrorMessage e) }
  else
    { success := false
      payload := none
      generationMethod := none
      modelUsed := none
      error := some "Problem statement is required to generate market research" }

/-- The textarea value transform of the Landing page input
(Landing.jsx line 76): the maxLength attribute set to 1000 makes the
browser cap the typed value at 1000 characters before it ever reaches
component state. -/
def textareaValue (typed : String) : String :=
  ⟨typed.data.take 1000⟩

/-- A fetch outcome is a failure mode of the service boundary: the
promise rejected, or the response is not ok, or its body failed to
parse, or the parsed body carries a falsy success flag. -/
def isFailureOutcome : FetchOutcome → Prop
  | FetchOutcome.networkError _ => True
  | FetchOutcome.response ok _ body =>
    ok = false ∨ (∃ m, body = Except.error m) ∨
      (∃ d, body = Except.ok d ∧ (d.get "success").truthy = false)

/-- Dropping from the front of an append whose first part satisfies the
predicate throughout skips that part entirely. -/
theorem dropWhile_append_of_forall {α : Type} (p : α → Bool) {w : List α}
    (l : List α) (h : ∀ x ∈ w, p x = true) :
    (w ++ l).dropWhile p = l.dropWhile p := by
  induction w with
  | nil => simp
  | cons a as ih =>
    have ha : p a = true := h a (by simp)
    simp only [List.cons_append, List.dropWhile_cons, ha, if_true]
    exact ih (fun x hx => h x (by simp [hx]))

/-- Dropping from the back of an append whose second part satisfies the
predicate throughout skips that part entirely. -/
theorem rdropWhile_append_of_forall {α : Type} (p : α → Bool) (l : List α)
    {w : List α} (h : ∀ x ∈ w, p x = true) :
    (l ++ w).rdropWhile p = l.rdropWhile p := by
  simp only [List.rdropWhile, List.reverse_append]
  rw [dropWhile_append_of_forall p l.reverse
    (fun x hx => h x (List.mem_reverse.mp hx))]

/-- Splitting dropWhile over an append on whether the first part is
consumed entirely. -/
theorem dropWhile_append_split {α : Type} [DecidableEq α] (p : α → Bool)
    (a b : List α) :
    (a ++ b).dropWhile p =
      if a.dropWhile p = [] then b.dropWhile p else a.dropWhile p ++ b := by
  induction a with
  | nil => simp
  | cons x xs ih =>
    by_cases hx : p x = true
    · simpa [List.dropWhile_cons, hx] using ih
    · simp [List.dropWhile_cons, hx]

/-- A character list that is white space throughout trims to nothing. -/
theorem jsTrimList_of_all_ws {l : List Char}
    (h : ∀ c ∈ l, isJsWhitespace c = true) : jsTrimList l = [] := by
  have h1 : l.dropWhile isJsWhitespace = [] :=
    List.dropWhile_eq_nil_iff.mpr h
  simp [jsTrimList, h1, List.rdropWhile_nil]

/-- Surrounding white space does not affect the trimmed value. -/
theorem jsTrimList_surround (w1 c w2 : List Char)
    (h1 : ∀ x ∈ w1, isJsWhitespace x = true)
    (h2 : ∀ x ∈ w2, isJsWhitespace x = true) :
    jsTrimList (w1 ++ (c ++ w2)) = jsTrimList c := by
  simp only [jsTrimList]
  rw [dropWhile_append_of_forall _ _ h1, dropWhile_append_split]
  by_cases hc : c.dropWhile isJsWhitespace = []
  · simp [hc, List.dropWhile_eq_nil_iff.mpr h2, List.rdropWhile_nil]
  · rw [if_neg hc, rdropWhile_append_of_forall _ _ h2]

/-- A string that is white space throughout trims to the empty string. -/
theorem jsTrim_of_all_ws {s : String}
    (h : ∀ c ∈ s.data, isJsWhitespace c = true) : jsTrim s = "" := by
  simp [jsTrim, jsTrimList_of_all_ws h]

/-- C1: for every Gateway failure on the question-generation task, the
Orchestrator result has success true and generationMethod fallback, and
its question sequence is exactly the Fallback Question Bank output for
that problem statement, which is non-empty; no error is surfaced. -/
theorem question_gateway_failure_absorbed (ps : String)
    (e : GatewayErrorKind) (h : validProblemStatement ps = true) :
    orchestrateQuestions ps (Except.error e) =
      { success := true
        generationMethod := some GenerationMethod.fallback
        questions := fallbackQuestionBank ps
        error := none } ∧
    fallbackQuestionBank ps ≠ [] := by
  refine ⟨?_, ?_⟩
  · simp [orchestrateQuestions, h]
  · simp [fallbackQuestionBank]

/-- Witness for C1 at a concrete valid problem statement and a concrete
timeout failure. -/
theorem question_gateway_failure_absorbed_witness :
    orchestrateQuestions "Retail stores cannot track inventory in real time"
        (Except.error GatewayErrorKind.timeout) =
      { success := true
        generationMethod := some GenerationMethod.fallback
        questions :=
          fallbackQuestionBank "Retail stores cannot track inventory in real time"
        error := none } ∧
    fallbackQuestionBank "Retail stores cannot track inventory in real time" ≠ [] :=
  question_gateway_failure_absorbed
    "Retail stores cannot track inventory in real time"
    GatewayErrorKind.timeout (by decide)

/-- C2: for every Gateway failure on the report-generation task, the
Orchestrator result has success false, an empty payload, and a populated
non-empty error message; no fallback report content exists. -/
theorem report_gateway_failure_fails (ps : String)
    (e : GatewayErrorKind) (h : validProblemStatement ps = true) :
    (orchestrateReport ps (Except.error e)).success = false ∧
    (orchestrateReport ps (Except.error e)).payload = none ∧
    (orchestrateReport ps (Except.error e)).error =
      some (gatewayErrorMessage e) ∧
    gatewayErrorMessage e ≠ "" := by
  refine ⟨?_, ?_, ?_, ?_⟩
  · simp [orchestrateReport, h]
  · simp [orchestrateReport, h]
  · simp [orchestrateReport, h]
  · cases e <;> simp [gatewayErrorMessage]

/-- Witness for C2 at a concrete valid problem statement and a concrete
unreachable-service failure. -/
theorem report_gateway_failure_fails_witness :
    (orchestrateReport "Retail stores cannot track inventory in real time"
        (Except.error GatewayErrorKind.unreachable)).success = false ∧
    (orchestrateReport "Retail stores cannot track inventory in real time"
        (Except.error GatewayErrorKind.unreachable)).payload = none ∧
    (orchestrateReport "Retail stores cannot track inventory in real time"
        (Except.error GatewayErrorKind.unreachable)).error =
      some (gatewayErrorMessage GatewayErrorKind.unreachable) ∧
    gatewayErrorMessage GatewayErrorKind.unreachable ≠ "" :=
  report_gateway_failure_fails
    "Retail stores cannot track inventory in real time"
    GatewayErrorKind.unreachable (by decide)

/-- C6: a successful report generation passes the structured payload
through unchanged with generationMethod live-model, and the client
returns the parsed response body as-is whenever its success flag is
true. -/
theorem live_report_passthrough :
    (∀ (ps : String) (r : NormalizedResponse),
        validProblemStatement ps = true →
        orchestrateReport ps (Except.ok r) =
          { success := true
            payload := some r.payload
            generationMethod := some GenerationMethod.liveModel
            modelUsed := some r.model
            error := none }) ∧
    (∀ (st : Nat) (d : Json), (d.get "success").truthy = true →
        interpretReport (FetchOutcome.response true st (Except.ok d)) =
          Except.ok d) := by
  constructor
  · intro ps r h
    simp [orchestrateReport, h]
  · intro st d h
    simp [interpretReport, h]

/-- Witness for C6 at a structured payload with the keyed sections of
the spec scenario and a parsed client body with a true success flag. -/
theorem live_report_passthrough_witness :
    orchestrateReport "Retail stores cannot track inventory in real time"
        (Except.ok
          { payload := Json.obj
              [("Executive Summary", Json.str "strong demand"),
               ("Market Analysis & Market Maps", Json.str "growing market")]
            model := "claude-3-5-sonnet-20241022" }) =
      { success := true
        payload := some (Json.obj
          [("Executive Summary", Json.str "strong demand"),
           ("Market Analysis & Market Maps", Json.str "growing market")])
        generationMethod := some GenerationMethod.liveModel
        modelUsed := some "claude-3-5-sonnet-20241022"
        error := none } ∧
    interpretReport (FetchOutcome.response true 200
        (Except.ok (Json.obj [("success", Json.bool true)]))) =
      Except.ok (Json.obj [("success", Json.bool true)]) :=
  ⟨live_report_passthrough.1
      "Retail stores cannot track inventory in real time" _ (by decide),
   live_report_passthrough.2 200 _ (by decide)⟩

/-- C3: for every empty or whitespace-only problem statement, the
Landing handler sets the validation message
`Please enter a problem statement` and the Dashboard report handler sets
`Problem statement is required to generate market research` (also when
the profile has no problem at all), and neither performs any network
call. -/
theorem empty_input_validation_no_network (s : String)
    (env : Nat → FetchOutcome)
    (h : ∀ c ∈ s.data, isJsWhitespace c = true) :
    handleGenerateQuestions s env =
      { errorMessage := "Please enter a problem statement"
        questions := none
        networkCalls := 0 } ∧
    generateMarketResearchReport (some s) env =
      { marketError := "Problem statement is required to generate market research"
        marketReport := none
        networkCalls := 0 } ∧
    generateMarketResearchReport none env =
      { marketError := "Problem statement is required to generate market research"
        marketReport := none
        networkCalls := 0 } := by
  have ht := jsTrim_of_all_ws h
  refine ⟨?_, ?_, ?_⟩
  · simp [handleGenerateQuestions, ht]
  · simp [generateMarketResearchReport, ht]
  · simp [generateMarketResearchReport]

/-- Witness for C3 at the whitespace-only input of a single blank, with
an environment whose network would fail if it were ever consulted. -/
theorem empty_input_validation_no_network_witness :
    handleGenerateQuestions " " (fun _ => FetchOutcome.networkError "x") =
      { errorMessage := "Please enter a problem statement"
        questions := none
        networkCalls := 0 } ∧
    generateMarketResearchReport (some " ")
        (fun _ => FetchOutcome.networkError "x") =
      { marketError := "Problem statement is required to generate market research"
        marketReport := none
        networkCalls := 0 } ∧
    generateMarketResearchReport none
        (fun _ => FetchOutcome.networkError "x") =
      { marketError := "Problem statement is required to generate market research"
        marketReport := none
        networkCalls := 0 } :=
  empty_input_validation_no_network " "
    (fun _ => FetchOutcome.networkError "x") (by decide)

/-- C7: one invocation of a generation operation performs exactly one
HTTP request whatever the outcome (so at most one; a failed attempt is
never retried), and a repeated invocation with the identical input
consumes a fresh outcome from the environment instead of a cached
result - exhibited concretely by two identical invocations receiving
two different live payloads. -/
theorem single_request_per_invocation :
    (∀ (ps : String) (env : Nat → FetchOutcome) (n : Nat),
        (runGenerateQuestions ps env n).2 = n + 1 ∧
        (runGenerateQuestions ps env n).1 = generateQuestions (env n)) ∧
    (∀ (ps : String) (ua : Option (List Json)) (env : Nat → FetchOutcome)
        (n : Nat),
        (runGenerateReport ps ua env n).2 = n + 1 ∧
        (runGenerateReport ps ua env n).1 = interpretReport (env n)) ∧
    (∀ (ps : String) (env : Nat → FetchOutcome),
        (runGenerateQuestions ps env (runGenerateQuestions ps env 0).2).2 = 2 ∧
        (runGenerateQuestions ps env (runGenerateQuestions ps env 0).2).1 =
          generateQuestions (env 1)) ∧
    (runGenerateQuestions "p"
        (fun k => FetchOutcome.response true 200
          (Except.ok (Json.obj
            [("success", Json.bool true), ("idx", Json.num (Int.ofNat k))]))) 0).1 ≠
      (runGenerateQuestions "p"
        (fun k => FetchOutcome.response true 200
          (Except.ok (Json.obj
            [("success", Json.bool true), ("idx", Json.num (Int.ofNat k))]))) 1).1 := by
  refine ⟨fun ps env n => ⟨rfl, rfl⟩, fun ps ua env n => ⟨rfl, rfl⟩,
    fun ps env => ⟨rfl, rfl⟩, ?_⟩
  simp [runGenerateQuestions, generateQuestions, Json.get, Json.truthy]

/-- C4 counterexample: the generation call does not convert failures
into typed results - on a non-ok response it throws an
`HTTP error! status: 500` exception to its caller (the source catch
block rethrows), exhibited at a concrete 500 response. -/
theorem generation_throws_on_http_failure :
    generateQuestions
        (FetchOutcome.response false 500 (Except.ok (Json.obj []))) =
      Except.error "HTTP error! status: 500" := by
  rfl

/-- C4 amended: on every failure mode (network rejection, non-2xx
status, malformed JSON body, falsy success flag) both generation calls
propagate an exception to their caller rather than returning a typed
error result; the callers (Landing and Dashboard) catch it. -/
theorem generation_failures_propagate_exception (o : FetchOutcome)
    (h : isFailureOutcome o) :
    (∃ m, generateQuestions o = Except.error m) ∧
    (∃ m, interpretReport o = Except.error m) := by
  cases o with
  | networkError m => exact ⟨⟨m, rfl⟩, ⟨m, rfl⟩⟩
  | response ok status body =>
    cases ok with
    | false => exact ⟨⟨_, rfl⟩, ⟨_, rfl⟩⟩
    | true =>
      simp only [isFailureOutcome] at h
      rcases h with h | ⟨m, rfl⟩ | ⟨d, rfl, hd⟩
      · cases h
      · exact ⟨⟨m, rfl⟩, ⟨m, rfl⟩⟩
      · exact ⟨⟨errorOrDefault (d.get "error") "Failed to generate questions",
            by simp [generateQuestions, hd]⟩,
          ⟨errorOrDefault (d.get "error") "Failed to generate report",
            by simp [interpretReport, hd]⟩⟩

/-- Witness for the amended C4 at a concrete rejected fetch. -/
theorem generation_failures_propagate_exception_witness :
    (∃ m, generateQuestions (FetchOutcome.networkError "Failed to fetch") =
      Except.error m) ∧
    (∃ m, interpretReport (FetchOutcome.networkError "Failed to fetch") =
      Except.error m) :=
  generation_failures_propagate_exception
    (FetchOutcome.networkError "Failed to fetch") trivial

/-- A 1001-character problem statement, one character over the limit. -/
def overLimitInput : String :=
  ⟨List.replicate 1001 (Char.ofNat 97)⟩

set_option maxRecDepth 10000 in
/-- C5 counterexample: at a concrete 1001-character problem statement
the generation operation does not return a ValidationError with zero
network calls - it performs one network call and its resulting error is
the connection failure, not the validation message. -/
theorem over_limit_input_reaches_network :
    1000 < overLimitInput.length ∧
    (handleGenerateQuestions overLimitInput
        (fun _ => FetchOutcome.networkError "Failed to fetch")).networkCalls = 1 ∧
    (handleGenerateQuestions overLimitInput
        (fun _ => FetchOutcome.networkError "Failed to fetch")).errorMessage ≠
      "Please enter a problem statement" := by
  have hne : ¬ jsTrim overLimitInput = "" := by decide
  refine ⟨by decide, ?_, ?_⟩
  · simp [handleGenerateQuestions, hne, runGenerateQuestions,
      generateQuestions]
  · simp [handleGenerateQuestions, hne, runGenerateQuestions,
      generateQuestions]

/-- C5 amended: the 1000-character limit is enforced at the input
boundary, not by the generation operation: the textarea maxLength
attribute caps the component state at 1000 characters, while the
generation path itself performs no length validation - any input with a
non-empty trim triggers exactly one network call regardless of its
length. -/
theorem length_cap_at_input_boundary (s typed : String)
    (env : Nat → FetchOutcome) (h : jsTrim s ≠ "") :
    (handleGenerateQuestions s env).networkCalls = 1 ∧
    (textareaValue typed).length ≤ 1000 ∧
    (typed.length ≤ 1000 → textareaValue typed = typed) := by
  refine ⟨?_, ?_, ?_⟩
  · cases hq : generateQuestions (env 0) with
    | ok v => simp [handleGenerateQuestions, h, runGenerateQuestions, hq]
    | error m => simp [handleGenerateQuestions, h, runGenerateQuestions, hq]
  · simp only [textareaValue, String.length, List.length_take]
    exact min_le_left _ _
  · intro hl
    simp only [textareaValue]
    have : typed.data.take 1000 = typed.data :=
      List.take_of_length_le hl
    rw [this]

/-- Witness for the amended C5 at a concrete one-character input. -/
theorem length_cap_at_input_boundary_witness :
    (handleGenerateQuestions "a"
        (fun _ => FetchOutcome.networkError "x")).networkCalls = 1 ∧
    (textareaValue "a").length ≤ 1000 ∧
    ("a".length ≤ 1000 → textareaValue "a" = "a") :=
  length_cap_at_input_boundary "a" "a"
    (fun _ => FetchOutcome.networkError "x") (by decide)

/-- C8 amended: rendering the Dashboard with the pitch or connections
section active always throws a ReferenceError instead of rendering,
because those section blocks evaluate identifiers that are never
declared in the Dashboard component (the listed identifiers are all
referenced by those two blocks and none is declared); the profile and
market blocks, and the sections with only the generic placeholder
(landing, content, naming), render without error. -/
theorem pitch_connections_always_throw :
    renderDashboard "pitch" =
      Except.error (RenderError.referenceError "pitchLoading") ∧
    renderDashboard "connections" =
      Except.error (RenderError.referenceError "isLoading") ∧
    renderDashboard "profile" = Except.ok () ∧
    renderDashboard "market" = Except.ok () ∧
    renderDashboard "landing" = Except.ok () ∧
    renderDashboard "content" = Except.ok () ∧
    renderDashboard "naming" = Except.ok () ∧
    (["pitchLoading", "pitchSlides", "pitchError", "setPitchError",
      "isLoading", "investors", "setInvestors", "setError"].all
        (fun i =>
          (pitchRenderIds ++ pitchHandlerIds ++ connectionsRenderIds ++
            connectionsHandlerIds).contains i &&
          !(dashboardDeclared.contains i))) = true := by
  refine ⟨rfl, rfl, rfl, rfl, rfl, rfl, rfl, rfl⟩

/-- C8 counterexample: the clause that only the profile and market
sections can render without error is false - the landing section is a
section key distinct from both, and rendering the Dashboard with it
active completes without error (its body is the generic placeholder; the
undeclared-identifier blocks are guarded by the active key and stay
unevaluated). -/
theorem landing_renders_without_error :
    "landing" ∈ sectionKeys ∧
    "landing" ≠ "profile" ∧ "landing" ≠ "market" ∧
    renderDashboard "landing" = Except.ok () := by
  exact ⟨by decide, by decide, by decide, rfl⟩

/-- C9: the useProfile hook is total over every session storage state:
an absent `glowup-profile` key or a stored value that JSON.parse cannot
parse yields the empty object rather than an exception, and any
parseable stored value is returned as parsed. The hypothesis pins the
one relevant fact about JSON.parse itself - parsing the empty string
fails. -/
theorem useProfile_total (parse : String → Option Json)
    (hp : parse "" = none) (stored : Option String) :
    ((stored = none ∨ ∃ raw, stored = some raw ∧ parse raw = none) →
      useProfile parse stored = Json.obj []) ∧
    (∀ raw v, stored = some raw → parse raw = some v →
      useProfile parse stored = v) := by
  constructor
  · rintro (rfl | ⟨raw, rfl, hr⟩)
    · rfl
    · by_cases he : raw = ""
      · subst he
        simp [useProfile]
      · simp [useProfile, he, hr]
  · rintro raw v rfl hv
    have he : raw ≠ "" := by
      intro h
      subst h
      rw [hp] at hv
      cases hv
    simp [useProfile, he, hv]

/-- A concrete stand-in for JSON.parse used by the C9 witness: it
parses exactly one string and fails on everything else (in particular
on the empty string, like JSON.parse). -/
def demoParse : String → Option Json :=
  fun s =>
    if s = "stored-profile" then
      some (Json.obj [("startupName", Json.str "Acme")])
    else none

/-- Witness for C9 at an absent key, an unparseable stored value, and a
parseable stored value. -/
theorem useProfile_total_witness :
    useProfile demoParse none = Json.obj [] ∧
    useProfile demoParse (some "not json") = Json.obj [] ∧
    useProfile demoParse (some "stored-profile") =
      Json.obj [("startupName", Json.str "Acme")] :=
  ⟨(useProfile_total demoParse rfl none).1 (Or.inl rfl),
   (useProfile_total demoParse rfl (some "not json")).1
     (Or.inr ⟨"not json", rfl, rfl⟩),
   (useProfile_total demoParse rfl (some "stored-profile")).2
     "stored-profile" _ rfl rfl⟩

/-- C10: generateQuestions always sends the request body with
problem_statement equal to the trimmed input, trimming is invariant
under surrounding white space, and two inputs differing only in leading
and trailing white space produce identical request bodies. -/
theorem request_body_trims_whitespace (w1 c w2 w3 w4 : List Char)
    (h1 : ∀ x ∈ w1, isJsWhitespace x = true)
    (h2 : ∀ x ∈ w2, isJsWhitespace x = true)
    (h3 : ∀ x ∈ w3, isJsWhitespace x = true)
    (h4 : ∀ x ∈ w4, isJsWhitespace x = true) :
    (∀ s : String, generateQuestionsRequest s =
      { url := "http://localhost:5001/api/generate-questions"
        method := "POST"
        body := Json.obj [("problem_statement", Json.str (jsTrim s))] }) ∧
    jsTrim ⟨w1 ++ (c ++ w2)⟩ = jsTrim ⟨c⟩ ∧
    generateQuestionsRequest ⟨w1 ++ (c ++ w2)⟩ =
      generateQuestionsRequest ⟨w3 ++ (c ++ w4)⟩ := by
  have e1 : jsTrim ⟨w1 ++ (c ++ w2)⟩ = jsTrim ⟨c⟩ :=
    congrArg (fun l => (⟨l⟩ : String)) (jsTrimList_surround w1 c w2 h1 h2)
  have e2 : jsTrim ⟨w3 ++ (c ++ w4)⟩ = jsTrim ⟨c⟩ :=
    congrArg (fun l => (⟨l⟩ : String)) (jsTrimList_surround w3 c w4 h3 h4)
  refine ⟨fun s => rfl, e1, ?_⟩
  simp only [generateQuestionsRequest, e1, e2]

/-- Witness for C10 at concrete surrounding white space around the core
input `pain`. -/
theorem request_body_trims_whitespace_witness :
    (∀ s : String, generateQuestionsRequest s =
      { url := "http://localhost:5001/api/generate-questions"
        method := "POST"
        body := Json.obj [("problem_statement", Json.str (jsTrim s))] }) ∧
    jsTrim ⟨[' '] ++ ("pain".data ++ ['\n'])⟩ = jsTrim ⟨"pain".data⟩ ∧
    generateQuestionsRequest ⟨[' '] ++ ("pain".data ++ ['\n'])⟩ =
      generateQuestionsRequest ⟨[] ++ ("pain".data ++ [' ', ' '])⟩ :=
  request_body_trims_whitespace [' '] "pain".data ['\n'] [] [' ', ' ']
    (by decide) (by decide) (by decide) (by decide)
